import Mathlib

/-!
Verification of the author-written logic in
`src/python/tutorials/matrix_factorization.ipynb`:
the `RMSE` metric, the `Batch` container, the `DataIter` batch iterator
(file loading, `__iter__`, `reset`) and the `max_id` helper.

Numbers are modelled by `ℚ` (Python floats on the inputs in question are
exact decimals), fallible Python code by `Option` (`none` = the call raises),
and an in-memory file by its list of lines (`List String`).
-/

set_option autoImplicit false

namespace MF

/-- Python whitespace for `str.strip()` and numeric-literal stripping. -/
def pyIsSpace (c : Char) : Bool :=
  c = ' ' || c = '\t' || c = '\n' || c = '\r' || c = '\x0b' || c = '\x0c'

/-- Models Python `s.strip()`: removes leading and trailing whitespace. -/
def pyStrip (cs : List Char) : List Char :=
  ((cs.dropWhile pyIsSpace).reverse.dropWhile pyIsSpace).reverse

/-- Models Python `s.split('\t')`: cuts at every tab, keeping empty pieces
(`''.split('\t') == ['']`). -/
def pySplitTab : List Char → List (List Char)
  | [] => [[]]
  | c :: rest =>
      if c = '\t' then [] :: pySplitTab rest
      else
        match pySplitTab rest with
        | [] => [[c]]
        | t :: ts => (c :: t) :: ts

/-- The token list of one input line: `line.strip().split('\t')`. -/
def lineTokens (line : String) : List (List Char) :=
  pySplitTab (pyStrip line.data)

/-- Numeric value of a list of decimal digit characters, most significant
first, as accumulated left to right. -/
def digitsVal (cs : List Char) : Nat :=
  cs.foldl (fun n c => n * 10 + (c.toNat - '0'.toNat)) 0

/-- Holds (`true`) iff `cs` is a non-empty run of decimal digits. -/
def isDigitRun (cs : List Char) : Bool :=
  !cs.isEmpty && cs.all (·.isDigit)

/-- Models the Python builtin `int(s)` (base 10): surrounding whitespace is
ignored, an optional single leading sign is allowed, the rest must be a
non-empty run of decimal digits; otherwise the call raises (`none`). -/
def pyInt (s : List Char) : Option Int :=
  match pyStrip s with
  | '-' :: rest => if isDigitRun rest then some (-(digitsVal rest : Int)) else none
  | '+' :: rest => if isDigitRun rest then some (digitsVal rest : Int) else none
  | rest => if isDigitRun rest then some (digitsVal rest : Int) else none

/-- Magnitude part of a Python float literal: decimal digits with at most one
decimal point and at least one digit (`"3"`, `"3.5"`, `".5"`, `"3."`).
Exponent and special forms are outside the subset modelled here. -/
def pyFloatMag (cs : List Char) : Option ℚ :=
  match cs.span (· ≠ '.') with
  | (intPart, []) =>
      if isDigitRun intPart then some (digitsVal intPart : ℚ) else none
  | (intPart, _ :: fracPart) =>
      if intPart.all (·.isDigit) && fracPart.all (·.isDigit) &&
         (!intPart.isEmpty || !fracPart.isEmpty)
      then some ((digitsVal intPart : ℚ) + (digitsVal fracPart : ℚ) / (10 ^ fracPart.length))
      else none

/-- Models the Python builtin `float(s)` on plain decimal literals:
surrounding whitespace ignored, optional single leading sign, then a digit
string with at most one decimal point. -/
def pyFloat (s : List Char) : Option ℚ :=
  match pyStrip s with
  | '-' :: rest => (pyFloatMag rest).map (fun q => -q)
  | '+' :: rest => pyFloatMag rest
  | rest => pyFloatMag rest

/-- Models Python `a / b` on floats: raises `ZeroDivisionError` (`none`)
when `b = 0`. -/
def pyDiv (a b : ℚ) : Option ℚ :=
  if b = 0 then none else some (a / b)

/-! ## The RMSE metric (notebook cell 10)

```python
def RMSE(label, pred):
    ret = 0.0
    n = 0.0
    pred = pred.flatten()
    for i in range(len(label)):
        ret += (label[i] - pred[i]) * (label[i] - pred[i])
        n += 1.0
    return math.sqrt(ret / n)
```
-/

/-- The accumulation loop of `RMSE`: runs over `i in range(len(label))`,
adding `(label[i] - pred[i]) * (label[i] - pred[i])` to `ret` and `1` to `n`;
`pred[i]` raises `IndexError` (`none`) when `pred` is shorter than `label`. -/
def rmseSums : List ℚ → List ℚ → Option (ℚ × ℚ)
  | [], _ => some (0, 0)
  | _ :: _, [] => none
  | l :: ls, p :: ps =>
      (rmseSums ls ps).map (fun s => ((l - p) * (l - p) + s.1, 1 + s.2))

/-- The function `RMSE` on an already one-dimensional `pred` (the body of the Python
function after the `pred = pred.flatten()` line, on which flattening is the
identity): `math.sqrt(ret / n)`. -/
noncomputable def RMSE (label pred : List ℚ) : Option ℝ :=
  match rmseSums label pred with
  | none => none
  | some (ret, n) =>
      match pyDiv ret n with
      | none => none
      | some m => some (Real.sqrt (m : ℝ))

/-- The `numpy`/`mxnet` flattening of a two-dimensional array into one
dimension, row major. -/
def ndFlatten (a : List (List ℚ)) : List ℚ := a.flatten

/-- The Python `RMSE` applied to a (possibly) two-dimensional `pred`:
`pred = pred.flatten()` runs first, then the accumulation loop. -/
noncomputable def RMSE_nd (label : List ℚ) (pred : List (List ℚ)) : Option ℝ :=
  RMSE label (ndFlatten pred)

/-! ## The inline computation of `test_RMSE` (notebook cell 11)

```python
def test_RMSE(label, pred, expect_ret):
    ret = 0.0
    n = 0.0
    for i in range(len(label)):
        ret += (label[i] - pred[i]) * (label[i] - pred[i])
        n += 1.0
    assert math.sqrt(ret / n) == expect_ret, "RMSE function failed."
```
-/

/-- The accumulation loop written inline in the body of `test_RMSE`
(identical text to the loop of `RMSE`, but recomputed in the test rather
than obtained by calling `RMSE`, and with no `flatten`). -/
def testSums : List ℚ → List ℚ → Option (ℚ × ℚ)
  | [], _ => some (0, 0)
  | _ :: _, [] => none
  | l :: ls, p :: ps =>
      (testSums ls ps).map (fun s => ((l - p) * (l - p) + s.1, 1 + s.2))

/-- The value `math.sqrt(ret / n)` that `test_RMSE` compares against its
expected result. -/
noncomputable def testRMSEVal (label pred : List ℚ) : Option ℝ :=
  match testSums label pred with
  | none => none
  | some (ret, n) =>
      match pyDiv ret n with
      | none => none
      | some m => some (Real.sqrt (m : ℝ))

/-! ## The `Batch` container (notebook cells 2 and 4)

```python
class Batch(object):
    def __init__(self, data_names, data, label_names, label):
        self.data = data
        self.label = label
        self.data_names = data_names
        self.label_names = label_names

    @property
    def provide_data(self):
        return [(n, x.shape) for n, x in zip(self.data_names, self.data)]

    @property
    def provide_label(self):
        return [(n, x.shape) for n, x in zip(self.label_names, self.label)]
```

One-dimensional `mx.nd` arrays are modelled as `List ℚ`; the shape of such
an array of length `L` is the one-element tuple `(L,)`, modelled `[L]`.
-/

/-- Shape of a one-dimensional `mx.nd.array`. -/
def ndShape (x : List ℚ) : List Nat := [x.length]

structure Batch where
  data_names : List String
  data : List (List ℚ)
  label_names : List String
  label : List (List ℚ)
deriving DecidableEq

/-- The property `Batch.provide_data`: names zipped with array shapes. -/
def Batch.provide_data (b : Batch) : List (String × List Nat) :=
  (b.data_names.zip b.data).map (fun p => (p.1, ndShape p.2))

/-- The property `Batch.provide_label`: names zipped with array shapes. -/
def Batch.provide_label (b : Batch) : List (String × List Nat) :=
  (b.label_names.zip b.label).map (fun p => (p.1, ndShape p.2))

/-! ## The `DataIter` class (notebook cell 4)

```python
class DataIter(mx.io.DataIter):
    def __init__(self, fname, batch_size):
        super(DataIter, self).__init__()
        self.batch_size = batch_size
        self.data = []
        for line in file(fname):
            tks = line.strip().split('\t')
            if len(tks) != 4:
                continue
            self.data.append((int(tks[0]), int(tks[1]), float(tks[2])))
        self.provide_data = [('user', (batch_size, )), ('item', (batch_size, ))]
        self.provide_label = [('score', (self.batch_size, ))]

    def __iter__(self):
        for k in range(len(self.data) / self.batch_size):
            users = []
            items = []
            scores = []
            for i in range(self.batch_size):
                j = k * self.batch_size + i
                user, item, score = self.data[j]
                users.append(user)
                items.append(item)
                scores.append(score)
            data_all = [mx.nd.array(users), mx.nd.array(items)]
            label_all = [mx.nd.array(scores)]
            data_names = ['user', 'item']
            label_names = ['score']
            data_batch = Batch(data_names, data_all, label_names, label_all)
            yield data_batch

    def reset(self):
        random.shuffle(self.data)
```
-/

/-- A rating record `(int(tks[0]), int(tks[1]), float(tks[2]))`. -/
abbrev RatingRec := Int × Int × ℚ

/-- The loading loop of `DataIter.__init__`: each line is stripped and split
on tabs; a line whose token count is not 4 is skipped (`continue`); otherwise
the first two tokens go through `int` and the third through `float` (a parse
failure raises out of the whole loop, giving `none`) and the record is
appended. -/
def loadData : List String → Option (List RatingRec)
  | [] => some []
  | line :: rest =>
      match lineTokens line with
      | [t0, t1, t2, _t3] => do
          let u ← pyInt t0
          let i ← pyInt t1
          let s ← pyFloat t2
          let tail ← loadData rest
          pure ((u, i, s) :: tail)
      | _ => loadData rest

structure DataIter where
  batch_size : Nat
  data : List RatingRec
  provide_data : List (String × List Nat)
  provide_label : List (String × List Nat)
deriving DecidableEq

/-- The constructor `DataIter.__init__` on the lines of the file `fname`. -/
def DataIter.init (lines : List String) (batch_size : Nat) : Option DataIter :=
  (loadData lines).map (fun d =>
    ⟨batch_size, d,
     [("user", [batch_size]), ("item", [batch_size])],
     [("score", [batch_size])]⟩)

/-- The batch yielded by `DataIter.__iter__` at iteration `k`: the inner loop
collects `self.data[k * batch_size + i]` for `i in range(batch_size)` into the
parallel lists `users`, `items`, `scores` (`mx.nd.array` converts the integer
ids to floats). -/
def DataIter.batchAt (it : DataIter) (k : Nat) : Batch :=
  let users := (List.range it.batch_size).map
    (fun i => ((it.data.getD (k * it.batch_size + i) (0, 0, 0)).1 : ℚ))
  let items := (List.range it.batch_size).map
    (fun i => ((it.data.getD (k * it.batch_size + i) (0, 0, 0)).2.1 : ℚ))
  let scores := (List.range it.batch_size).map
    (fun i => (it.data.getD (k * it.batch_size + i) (0, 0, 0)).2.2)
  ⟨["user", "item"], [users, items], ["score"], [scores]⟩

/-- The generator `DataIter.__iter__`: yields `batchAt k` for
`k in range(len(self.data) / self.batch_size)` (Python 2 floor division). -/
def DataIter.iterBatches (it : DataIter) : List Batch :=
  (List.range (it.data.length / it.batch_size)).map it.batchAt

/-- The method `DataIter.reset`: `random.shuffle(self.data)` replaces `self.data` in
place by a permutation of itself chosen by the random number generator; the
permuted list is passed in as `shuffled` (theorems about `reset` assume
`shuffled ~ it.data`, the contract of `random.shuffle`). -/
def DataIter.reset (it : DataIter) (shuffled : List RatingRec) : DataIter :=
  ⟨it.batch_size, shuffled, it.provide_data, it.provide_label⟩

/-! ## The `max_id` helper (notebook cell 8)

```python
def max_id(fname):
    mu = 0
    mi = 0
    for line in file(fname):
        tks = line.strip().split('\t')
        if len(tks) != 4:
            continue
        mu = max(mu, int(tks[0]))
        mi = max(mi, int(tks[1]))
    return mu + 1, mi + 1
```
-/

/-- The loop of `max_id` with running maxima `mu`, `mi`. -/
def maxIdLoop (mu mi : Int) : List String → Option (Int × Int)
  | [] => some (mu + 1, mi + 1)
  | line :: rest =>
      match lineTokens line with
      | [t0, t1, _t2, _t3] => do
          let u ← pyInt t0
          let i ← pyInt t1
          maxIdLoop (max mu u) (max mi i) rest
      | _ => maxIdLoop mu mi rest

/-- The function `max_id` on the lines of the file: maxima start at `0`, only lines with
exactly 4 tab-separated tokens contribute, and the result is
`(mu + 1, mi + 1)`. -/
def max_id (lines : List String) : Option (Int × Int) :=
  maxIdLoop 0 0 lines

/-- Two lines that agree except possibly in the fourth (timestamp) token of
a well-formed 4-token line. -/
def tsOnly (a b : String) : Prop :=
  a = b ∨ ∃ t0 t1 t2 x y,
    lineTokens a = [t0, t1, t2, x] ∧ lineTokens b = [t0, t1, t2, y]

/-! ## Helper lemmas about the RMSE loop -/

theorem rmseSums_self : ∀ s : List ℚ, rmseSums s s = some (0, (s.length : ℚ))
  | [] => rfl
  | a :: t => by
      simp [rmseSums, rmseSums_self t]
      ring

theorem rmseSums_eq : ∀ label pred : List ℚ, label.length ≤ pred.length →
    rmseSums label pred =
      some (∑ i ∈ Finset.range label.length,
              (label.getD i 0 - pred.getD i 0) ^ 2,
            (label.length : ℚ))
  | [], _, _ => by simp [rmseSums]
  | _ :: _, [], h => by simp at h
  | l :: ls, p :: ps, h => by
      have h' : ls.length ≤ ps.length := by simpa using h
      simp only [rmseSums, rmseSums_eq ls ps h', Option.map_some', List.length_cons,
        Finset.sum_range_succ', List.getD_cons_succ, List.getD_cons_zero,
        Option.some.injEq, Prod.mk.injEq, Nat.cast_add, Nat.cast_one]
      constructor
      · ring
      · ring

theorem testSums_eq_rmseSums : ∀ label pred : List ℚ,
    testSums label pred = rmseSums label pred
  | [], _ => rfl
  | _ :: _, [] => rfl
  | _ :: ls, _ :: ps => by
      simp [testSums, rmseSums, testSums_eq_rmseSums ls ps]

theorem RMSE_eq_sqrt (label pred : List ℚ) (hne : label ≠ [])
    (h : label.length ≤ pred.length) :
    RMSE label pred =
      some (Real.sqrt (((∑ i ∈ Finset.range label.length,
        (label.getD i 0 - pred.getD i 0) ^ 2) / (label.length : ℚ) : ℚ) : ℝ)) := by
  have hn : (label.length : ℚ) ≠ 0 := by
    simpa using List.length_pos.mpr hne |>.ne'
  simp only [RMSE, rmseSums_eq label pred h, pyDiv, if_neg hn]

/-! ## Claim theorems about `RMSE` -/

/-- C1: for every pair of equal-length non-empty sequences of numbers
`label` and `pred`, `RMSE(label, pred)` returns
`sqrt((sum over i < n of (label[i] - pred[i])^2) / n)` where `n` is the
common length and `pred` is flattened to one dimension before use. -/
theorem RMSE_returns_sqrt_mean_sq (label : List ℚ) (pred : List (List ℚ))
    (hlen : label.length = (ndFlatten pred).length) (hne : label ≠ []) :
    RMSE_nd label pred =
      some (Real.sqrt (((∑ i ∈ Finset.range label.length,
        (label.getD i 0 - (ndFlatten pred).getD i 0) ^ 2) /
          (label.length : ℚ) : ℚ) : ℝ)) :=
  RMSE_eq_sqrt label (ndFlatten pred) hne (le_of_eq hlen)

/-- Witness for C1 at `label = [1, 2]`, `pred = [[2], [1]]`. -/
theorem RMSE_returns_sqrt_mean_sq_inst :
    RMSE_nd [1, 2] [[2], [1]] =
      some (Real.sqrt (((∑ i ∈ Finset.range (List.length ([1, 2] : List ℚ)),
        (([1, 2] : List ℚ).getD i 0 - (ndFlatten [[2], [1]]).getD i 0) ^ 2) /
          ((List.length ([1, 2] : List ℚ)) : ℚ) : ℚ) : ℝ)) :=
  RMSE_returns_sqrt_mean_sq [1, 2] [[2], [1]] (by decide) (by decide)

/-- C3: `RMSE([1,2,3,4,5], [2,1,3,5,6]) = sqrt(0.8)`; `RMSE(s, s) = 0` for
every non-empty numeric sequence `s`; and
`RMSE([1,5,10,15,20], [6,10,5,20,25]) = 5`. -/
theorem RMSE_known_values :
    RMSE [1, 2, 3, 4, 5] [2, 1, 3, 5, 6] = some (Real.sqrt 0.8)
    ∧ (∀ s : List ℚ, s ≠ [] → RMSE s s = some 0)
    ∧ RMSE [1, 5, 10, 15, 20] [6, 10, 5, 20, 25] = some 5 := by
  refine ⟨?_, ?_, ?_⟩
  · have h : rmseSums [1, 2, 3, 4, 5] [2, 1, 3, 5, 6] = some (4, 5) := by
      norm_num [rmseSums]
    have hd : pyDiv 4 5 = some (4 / 5 : ℚ) := by norm_num [pyDiv]
    simp only [RMSE, h, hd, Option.some.injEq]
    congr 1
    norm_num
  · intro s hs
    have hn : (s.length : ℚ) ≠ 0 := by
      simpa using (List.length_pos.mpr hs).ne'
    simp only [RMSE, rmseSums_self s, pyDiv, if_neg hn, zero_div]
    simp
  · have h : rmseSums [1, 5, 10, 15, 20] [6, 10, 5, 20, 25] = some (125, 5) := by
      norm_num [rmseSums]
    have hd : pyDiv 125 5 = some (25 : ℚ) := by norm_num [pyDiv]
    simp only [RMSE, h, hd, Option.some.injEq]
    have h25 : ((25 : ℚ) : ℝ) = 5 ^ 2 := by norm_num
    rw [h25, Real.sqrt_sq (by norm_num : (0 : ℝ) ≤ 5)]

/-- Witness for C3's quantified part at `s = [1]`. -/
theorem RMSE_known_values_inst : RMSE [(1 : ℚ)] [(1 : ℚ)] = some 0 :=
  RMSE_known_values.2.1 [(1 : ℚ)] (by decide)

/-- C4: on an empty `label` (any `pred`) `RMSE` divides by zero and fails;
on every non-empty pair of equal-length sequences it returns normally. -/
theorem RMSE_empty_fails_nonempty_returns :
    (∀ pred : List ℚ, RMSE [] pred = none)
    ∧ ∀ label pred : List ℚ, label ≠ [] → label.length = pred.length →
        ∃ r : ℝ, RMSE label pred = some r := by
  constructor
  · intro pred
    rfl
  · intro label pred hne hlen
    exact ⟨_, RMSE_eq_sqrt label pred hne (le_of_eq hlen)⟩

/-- Witness for C4's quantified part at `label = [1]`, `pred = [2]`. -/
theorem RMSE_empty_fails_nonempty_returns_inst :
    ∃ r : ℝ, RMSE [1] [2] = some r :=
  RMSE_empty_fails_nonempty_returns.2 [1] [2] (by decide) (by decide)

/-- C10: the value computed inline by `test_RMSE` (square root of the mean
squared difference, recomputed in the test body) equals `RMSE` applied to
the same equal-length non-empty one-dimensional inputs. -/
theorem testRMSE_matches_RMSE (label pred : List ℚ) (_hne : label ≠ [])
    (_hlen : label.length = pred.length) :
    testRMSEVal label pred = RMSE label pred := by
  simp only [testRMSEVal, RMSE, testSums_eq_rmseSums]

/-- Witness for C10 at `label = [1, 2]`, `pred = [2, 1]`. -/
theorem testRMSE_matches_RMSE_inst :
    testRMSEVal [1, 2] [2, 1] = RMSE [1, 2] [2, 1] :=
  testRMSE_matches_RMSE [1, 2] [2, 1] (by decide) (by decide)

/-! ## Helper lemmas about `DataIter` batching -/

theorem range_map_getD {α : Type} (l : List α) (d : α) (m b : Nat)
    (h : m + b ≤ l.length) :
    (List.range b).map (fun i => l.getD (m + i) d) = (l.drop m).take b := by
  apply List.ext_getElem
  · simp only [List.length_map, List.length_range, List.length_take, List.length_drop]
    omega
  · intro i h1 h2
    have hib : i < b := by simpa using h1
    have him : m + i < l.length := by omega
    rw [List.getElem_map, List.getElem_range, List.getElem_take, List.getElem_drop,
      List.getD_eq_getElem l d him]

theorem batchAt_eq (it : DataIter) (k : Nat)
    (h : k * it.batch_size + it.batch_size ≤ it.data.length) :
    it.batchAt k =
      ⟨["user", "item"],
       [((it.data.drop (k * it.batch_size)).take it.batch_size).map (fun r => (r.1 : ℚ)),
        ((it.data.drop (k * it.batch_size)).take it.batch_size).map (fun r => (r.2.1 : ℚ))],
       ["score"],
       [((it.data.drop (k * it.batch_size)).take it.batch_size).map (fun r => r.2.2)]⟩ := by
  have key := range_map_getD it.data (0, 0, 0) (k * it.batch_size) it.batch_size h
  simp only [DataIter.batchAt, ← key, List.map_map]
  rfl

/-! ## Claim theorems about `DataIter` -/

/-- C2: with `n` loaded records and batch size `b > 0`, `__iter__` yields
exactly `n / b` batches; the `k`-th batch holds exactly records
`k*b .. k*b + b - 1` in order, split into parallel `users`, `items`,
`scores` arrays; the trailing `n mod b` records are never yielded. -/
theorem iterBatches_slices (it : DataIter) (_hb : 0 < it.batch_size) :
    it.iterBatches.length = it.data.length / it.batch_size
    ∧ ∀ k, k < it.data.length / it.batch_size →
        it.iterBatches.getD k ⟨[], [], [], []⟩ =
          ⟨["user", "item"],
           [((it.data.drop (k * it.batch_size)).take it.batch_size).map
              (fun r => (r.1 : ℚ)),
            ((it.data.drop (k * it.batch_size)).take it.batch_size).map
              (fun r => (r.2.1 : ℚ))],
           ["score"],
           [((it.data.drop (k * it.batch_size)).take it.batch_size).map
              (fun r => r.2.2)]⟩ := by
  constructor
  · simp [DataIter.iterBatches]
  · intro k hk
    have hkb : k * it.batch_size + it.batch_size ≤ it.data.length := by
      have h1 : (k + 1) * it.batch_size ≤
          (it.data.length / it.batch_size) * it.batch_size :=
        Nat.mul_le_mul_right _ (Nat.succ_le_of_lt hk)
      have h2 := Nat.div_mul_le_self it.data.length it.batch_size
      rw [Nat.succ_mul] at h1
      omega
    have hlen : k < it.iterBatches.length := by
      simpa [DataIter.iterBatches] using hk
    rw [List.getD_eq_getElem _ _ hlen]
    have hk' : k < (List.range (it.data.length / it.batch_size)).length := by
      simpa using hk
    calc it.iterBatches[k]
        = it.batchAt k := by
          simp [DataIter.iterBatches]
      _ = _ := batchAt_eq it k hkb

/-- Witness for C2 at a 3-record iterator with batch size 2. -/
theorem iterBatches_slices_inst :
    (DataIter.mk 2 [(1, 2, 3), (4, 5, 6), (7, 8, 9)] [] []).iterBatches.length =
      (DataIter.mk 2 [(1, 2, 3), (4, 5, 6), (7, 8, 9)] [] []).data.length / 2
    ∧ ∀ k, k < (DataIter.mk 2 [(1, 2, 3), (4, 5, 6), (7, 8, 9)] [] []).data.length / 2 →
        (DataIter.mk 2 [(1, 2, 3), (4, 5, 6), (7, 8, 9)] [] []).iterBatches.getD k
            ⟨[], [], [], []⟩ =
          ⟨["user", "item"],
           [((((DataIter.mk 2 [(1, 2, 3), (4, 5, 6), (7, 8, 9)] [] []).data.drop
                (k * 2)).take 2).map (fun r => (r.1 : ℚ))),
            ((((DataIter.mk 2 [(1, 2, 3), (4, 5, 6), (7, 8, 9)] [] []).data.drop
                (k * 2)).take 2).map (fun r => (r.2.1 : ℚ)))],
           ["score"],
           [((((DataIter.mk 2 [(1, 2, 3), (4, 5, 6), (7, 8, 9)] [] []).data.drop
                (k * 2)).take 2).map (fun r => r.2.2))]⟩ :=
  iterBatches_slices (DataIter.mk 2 [(1, 2, 3), (4, 5, 6), (7, 8, 9)] [] []) (by decide)

/-- C6: every batch yielded by `__iter__` of an iterator built by
`__init__` has `users`, `items` and `scores` arrays of length exactly
`batch_size`, so its `provide_data` is `[('user', (batch_size,)),
('item', (batch_size,))]` and its `provide_label` is
`[('score', (batch_size,))]`, identical to the iterator's own declared
`provide_data` and `provide_label`. -/
theorem batch_shapes_invariant (lines : List String) (bs : Nat) (it : DataIter)
    (hinit : DataIter.init lines bs = some it) (b : Batch)
    (hb : b ∈ it.iterBatches) :
    (∀ x ∈ b.data, x.length = bs) ∧ (∀ x ∈ b.label, x.length = bs)
    ∧ b.provide_data = [("user", [bs]), ("item", [bs])]
    ∧ b.provide_label = [("score", [bs])]
    ∧ b.provide_data = it.provide_data
    ∧ b.provide_label = it.provide_label := by
  rw [DataIter.init, Option.map_eq_some'] at hinit
  obtain ⟨d, _hd, hit⟩ := hinit
  subst hit
  obtain ⟨k, _hk, rfl⟩ := List.mem_map.mp hb
  simp [DataIter.batchAt, Batch.provide_data, Batch.provide_label, ndShape]

/-- Witness for C6 at a one-line file with batch size 1. -/
theorem batch_shapes_invariant_inst :
    (∀ x ∈ (Batch.mk ["user", "item"] [[1], [2]] ["score"] [[3]]).data, x.length = 1)
    ∧ (∀ x ∈ (Batch.mk ["user", "item"] [[1], [2]] ["score"] [[3]]).label, x.length = 1)
    ∧ (Batch.mk ["user", "item"] [[1], [2]] ["score"] [[3]]).provide_data =
        [("user", [1]), ("item", [1])]
    ∧ (Batch.mk ["user", "item"] [[1], [2]] ["score"] [[3]]).provide_label =
        [("score", [1])]
    ∧ (Batch.mk ["user", "item"] [[1], [2]] ["score"] [[3]]).provide_data =
        (DataIter.mk 1 [(1, 2, 3)] [("user", [1]), ("item", [1])]
          [("score", [1])]).provide_data
    ∧ (Batch.mk ["user", "item"] [[1], [2]] ["score"] [[3]]).provide_label =
        (DataIter.mk 1 [(1, 2, 3)] [("user", [1]), ("item", [1])]
          [("score", [1])]).provide_label :=
  batch_shapes_invariant ["1\t2\t3\tx"] 1
    (DataIter.mk 1 [(1, 2, 3)] [("user", [1]), ("item", [1])] [("score", [1])])
    (by decide) (Batch.mk ["user", "item"] [[1], [2]] ["score"] [[3]]) (by decide)

/-- C8: `reset` permutes `self.data` in place — the multiset of loaded
records is unchanged — and leaves `batch_size`, `provide_data` and
`provide_label` untouched. -/
theorem reset_permutes_data_only (it : DataIter) (shuffled : List RatingRec)
    (h : shuffled.Perm it.data) :
    ((it.reset shuffled).data : Multiset RatingRec) = (it.data : Multiset RatingRec)
    ∧ (it.reset shuffled).batch_size = it.batch_size
    ∧ (it.reset shuffled).provide_data = it.provide_data
    ∧ (it.reset shuffled).provide_label = it.provide_label :=
  ⟨Multiset.coe_eq_coe.mpr h, rfl, rfl, rfl⟩

/-- Witness for C8 at a 2-record iterator and a swapped shuffle. -/
theorem reset_permutes_data_only_inst :
    (((DataIter.mk 2 [(1, 2, 3), (4, 5, 6)] [("user", [2]), ("item", [2])]
        [("score", [2])]).reset [(4, 5, 6), (1, 2, 3)]).data : Multiset RatingRec) =
      ((DataIter.mk 2 [(1, 2, 3), (4, 5, 6)] [("user", [2]), ("item", [2])]
        [("score", [2])]).data : Multiset RatingRec)
    ∧ ((DataIter.mk 2 [(1, 2, 3), (4, 5, 6)] [("user", [2]), ("item", [2])]
        [("score", [2])]).reset [(4, 5, 6), (1, 2, 3)]).batch_size =
      (DataIter.mk 2 [(1, 2, 3), (4, 5, 6)] [("user", [2]), ("item", [2])]
        [("score", [2])]).batch_size
    ∧ ((DataIter.mk 2 [(1, 2, 3), (4, 5, 6)] [("user", [2]), ("item", [2])]
        [("score", [2])]).reset [(4, 5, 6), (1, 2, 3)]).provide_data =
      (DataIter.mk 2 [(1, 2, 3), (4, 5, 6)] [("user", [2]), ("item", [2])]
        [("score", [2])]).provide_data
    ∧ ((DataIter.mk 2 [(1, 2, 3), (4, 5, 6)] [("user", [2]), ("item", [2])]
        [("score", [2])]).reset [(4, 5, 6), (1, 2, 3)]).provide_label =
      (DataIter.mk 2 [(1, 2, 3), (4, 5, 6)] [("user", [2]), ("item", [2])]
        [("score", [2])]).provide_label :=
  reset_permutes_data_only
    (DataIter.mk 2 [(1, 2, 3), (4, 5, 6)] [("user", [2]), ("item", [2])]
      [("score", [2])])
    [(4, 5, 6), (1, 2, 3)] (List.Perm.swap _ _ _)

/-! ## Claim theorems about line handling in `__init__` and `max_id` -/

/-- C5: `DataIter.__init__` and `max_id` keep exactly the lines that split
on a tab into exactly 4 tokens; a line with any other token count is
skipped without error and contributes nothing to the loaded data or to the
computed maxima. -/
theorem malformed_lines_skipped (line : String) (rest : List String) :
    ((lineTokens line).length ≠ 4 →
      loadData (line :: rest) = loadData rest
      ∧ max_id (line :: rest) = max_id rest)
    ∧ ∀ t0 t1 t2 t3 u i s,
        lineTokens line = [t0, t1, t2, t3] →
        pyInt t0 = some u → pyInt t1 = some i → pyFloat t2 = some s →
        loadData (line :: rest) = (loadData rest).map (fun d => (u, i, s) :: d) := by
  constructor
  · intro h4
    rcases htk : lineTokens line with _ | ⟨a, _ | ⟨b, _ | ⟨c, _ | ⟨d, _ | ⟨e, tl⟩⟩⟩⟩⟩ <;>
      simp_all [loadData, max_id, maxIdLoop]
  · intro t0 t1 t2 t3 u i s htk hu hi hs
    cases hrest : loadData rest <;>
      simp [loadData, htk, hu, hi, hs, hrest]

/-- Witness for C5: a 2-token line is skipped by both loaders, and a
4-token line prepends its parsed record. -/
theorem malformed_lines_skipped_inst :
    (loadData ["nope", "1\t2\t3\t9"] = loadData ["1\t2\t3\t9"]
      ∧ max_id ["nope", "1\t2\t3\t9"] = max_id ["1\t2\t3\t9"])
    ∧ loadData ["1\t2\t3\t9"] =
        (loadData []).map (fun d => ((1 : Int), (2 : Int), (3 : ℚ)) :: d) :=
  ⟨(malformed_lines_skipped ("nope") ["1\t2\t3\t9"]).1 (by decide),
   (malformed_lines_skipped ("1\t2\t3\t9") []).2 ['1'] ['2'] ['3'] ['9'] 1 2 3
     (by decide) (by decide) (by decide) (by decide)⟩

/-- C9: the loaded data depends only on the first three tab-separated
columns — two files whose 4-token lines agree on the first three tokens
and differ only in the fourth load identical record lists. -/
theorem loadData_ignores_timestamp (f1 f2 : List String)
    (h : List.Forall₂ tsOnly f1 f2) : loadData f1 = loadData f2 := by
  induction h with
  | nil => rfl
  | @cons a b l1 l2 hab _htail ih =>
    rcases hab with rfl | ⟨t0, t1, t2, x, y, hsa, hsb⟩
    · rcases htk : lineTokens a with _ | ⟨c0, _ | ⟨c1, _ | ⟨c2, _ | ⟨c3, _ | ⟨c4, tl⟩⟩⟩⟩⟩ <;>
        simp [loadData, htk, ih]
    · simp [loadData, hsa, hsb, ih]

/-- Witness for C9 at two one-line files differing only in the timestamp. -/
theorem loadData_ignores_timestamp_inst :
    loadData ["1\t2\t3\t100"] = loadData ["1\t2\t3\t200"] :=
  loadData_ignores_timestamp ["1\t2\t3\t100"] ["1\t2\t3\t200"]
    (List.Forall₂.cons
      (Or.inr ⟨['1'], ['2'], ['3'], ['1', '0', '0'], ['2', '0', '0'],
        by decide, by decide⟩)
      List.Forall₂.nil)

/-! ## `max_id`: relation to the loaded records -/

theorem init_le_foldl_max {α : Type} (g : α → Int) :
    ∀ (l : List α) (init : Int),
      init ≤ l.foldl (fun m x => max m (g x)) init
  | [], _ => le_refl _
  | _ :: t, _init =>
      le_trans (le_max_left _ _) (init_le_foldl_max g t _)

theorem mem_le_foldl_max {α : Type} (g : α → Int) :
    ∀ (l : List α) (r : α), r ∈ l →
      ∀ init : Int, g r ≤ l.foldl (fun m x => max m (g x)) init := by
  intro l
  induction l with
  | nil => intro r hr; cases hr
  | cons a t ih =>
    intro r hr init
    rcases List.mem_cons.mp hr with rfl | hmem
    · exact le_trans (le_max_right _ _) (init_le_foldl_max g t _)
    · exact ih r hmem _

theorem maxIdLoop_of_loadData (lines : List String) :
    ∀ (recs : List RatingRec) (mu mi : Int),
      loadData lines = some recs →
      maxIdLoop mu mi lines =
        some (recs.foldl (fun m r => max m r.1) mu + 1,
              recs.foldl (fun m r => max m r.2.1) mi + 1) := by
  induction lines with
  | nil =>
    intro recs mu mi h
    simp only [loadData, Option.some.injEq] at h
    subst h
    rfl
  | cons line rest ih =>
    intro recs mu mi h
    rcases htk : lineTokens line with _ | ⟨c0, _ | ⟨c1, _ | ⟨c2, _ | ⟨c3, _ | ⟨c4, tl⟩⟩⟩⟩⟩ <;>
      simp only [loadData, htk] at h <;>
      try exact (by simp only [maxIdLoop, htk]; exact ih recs mu mi h)
    simp only [Option.bind_eq_bind, Option.bind_eq_some, Option.pure_def,
      Option.some.injEq] at h
    obtain ⟨u, hu, i, hi, s, _hs, tail, htail, h⟩ := h
    subst h
    simp only [maxIdLoop, htk, hu, hi, Option.bind_some, List.foldl_cons]
    exact ih tail (max mu u) (max mi i) htail

/-- C7 counterexample: on the one-line file `"-5\t-3\t1\t0"` the loaded
maximum user id is `-5` and item id is `-3`, so the claim predicts
`max_id = (1 + (-5), 1 + (-3)) = (-4, -2)`; the code returns `(1, 1)`
because its running maxima start at `0`. -/
theorem max_id_negative_ids_cex :
    loadData ["-5\t-3\t1\t0"] = some [(-5, -3, 1)]
    ∧ max_id ["-5\t-3\t1\t0"] = some (1, 1)
    ∧ ((1 : Int), (1 : Int)) ≠ ((1 : Int) + (-5), (1 : Int) + (-3)) :=
  ⟨by decide, by decide, by decide⟩

/-- C7 (amended): for file contents `f` that `DataIter` loads successfully
into records `recs`, `max_id f` returns `(1 + max(0, user ids), 1 + max(0,
item ids))` over `recs` (so `(1, 1)` when there are none); consequently
every loaded user id is strictly below the first component and every
loaded item id strictly below the second. -/
theorem max_id_bounds_loaded_ids (lines : List String) (recs : List RatingRec)
    (h : loadData lines = some recs) :
    max_id lines =
      some (recs.foldl (fun m r => max m r.1) 0 + 1,
            recs.foldl (fun m r => max m r.2.1) 0 + 1)
    ∧ ∀ r ∈ recs,
        r.1 < recs.foldl (fun m r => max m r.1) 0 + 1
        ∧ r.2.1 < recs.foldl (fun m r => max m r.2.1) 0 + 1 := by
  refine ⟨maxIdLoop_of_loadData lines recs 0 0 h, ?_⟩
  intro r hr
  constructor
  · exact Int.lt_add_one_of_le (mem_le_foldl_max (fun r => r.1) recs r hr 0)
  · exact Int.lt_add_one_of_le (mem_le_foldl_max (fun r => r.2.1) recs r hr 0)

/-- Witness for the amended C7 at a two-line file. -/
theorem max_id_bounds_loaded_ids_inst :
    max_id ["1\t7\t3\tx", "4\t2\t5\ty"] =
      some ([((1 : Int), (7 : Int), (3 : ℚ)), (4, 2, 5)].foldl
              (fun m r => max m r.1) 0 + 1,
            [((1 : Int), (7 : Int), (3 : ℚ)), (4, 2, 5)].foldl
              (fun m r => max m r.2.1) 0 + 1)
    ∧ ∀ r ∈ [((1 : Int), (7 : Int), (3 : ℚ)), (4, 2, 5)],
        r.1 < [((1 : Int), (7 : Int), (3 : ℚ)), (4, 2, 5)].foldl
                (fun m r => max m r.1) 0 + 1
        ∧ r.2.1 < [((1 : Int), (7 : Int), (3 : ℚ)), (4, 2, 5)].foldl
                (fun m r => max m r.2.1) 0 + 1 :=
  max_id_bounds_loaded_ids ["1\t7\t3\tx", "4\t2\t5\ty"]
    [((1 : Int), (7 : Int), (3 : ℚ)), (4, 2, 5)] (by decide)

end MF
